import Mathlib

/-!
Verification of the YouTube publisher worker front-end (`src/index.js`)
against its specification.  The two HTTP handlers — `POST /publish/youtube`
and `GET /jobs/:id` — are shallowly embedded as pure Lean functions over an
explicit queue state; JavaScript objects are association lists of JSON-like
values, so that field presence and field order can be reasoned about.
-/

/-- A JSON-like value as manipulated by the JavaScript source.  `undefined`
models JavaScript `undefined` (a destructured field that is absent) and
`nan` the result of `parseInt` on a non-numeric string. -/
inductive JVal where
  | null : JVal
  | undefined : JVal
  | nan : JVal
  | num : Nat → JVal
  | str : String → JVal
  | obj : List (String × JVal) → JVal

/-- Property read `o.k` on a JavaScript object modelled as an association
list: the bound value, or `undefined` when the key is absent. -/
def jsGet (o : List (String × JVal)) (k : String) : JVal :=
  match o.find? (fun p => p.1 == k) with
  | some p => p.2
  | none => .undefined

/-- JavaScript `a || b` applied to an environment variable, as in
`process.env.CHUNK_SIZE || '8388608'`: an unset variable (`none`) and the
empty string are falsy and yield the default. -/
def jsOrStr (o : Option String) (d : String) : String :=
  match o with
  | none => d
  | some s => if s = "" then d else s

/-- JavaScript `parseInt` restricted to the base-10 inputs the source feeds
it: the longest leading run of digits is parsed, and `NaN` (here `none`)
results when there is none. -/
def jsParseInt (s : String) : Option Nat :=
  let ds := s.toList.takeWhile Char.isDigit
  if ds.isEmpty then none
  else some (ds.foldl (fun a c => a * 10 + (c.toNat - 48)) 0)

/-- A `parseInt` result as the JSON value stored in the job data. -/
def numOrNaN : Option Nat → JVal
  | some n => .num n
  | none => .nan

/-- The two environment variables the submission handler reads. -/
structure Env where
  CHUNK_SIZE : Option String
  MAX_RETRIES : Option String

/-- Job lifecycle states exposed on inquiry. -/
inductive JobState where
  | queued
  | active
  | completed
  | failed
deriving DecidableEq

/-- Rendering of a job state for the inquiry response. -/
def stateStr : JobState → String
  | .queued => "queued"
  | .active => "active"
  | .completed => "completed"
  | .failed => "failed"

/-- The backoff option object literal `{type: 'exponential', delay: 2000}`. -/
structure Backoff where
  type : String
  delay : Nat
deriving DecidableEq

/-- Queue options passed to `queue.add`: `attempts` and `backoff`. -/
structure JobOpts where
  attempts : Option Nat
  backoff : Backoff
deriving DecidableEq

/-- One stored job: queue-assigned id, job name, the data object built by
the submission handler, the queue options, the lifecycle state and the
stored progress value (`none` models a null/undefined stored progress). -/
structure Job where
  id : Nat
  name : String
  data : List (String × JVal)
  opts : JobOpts
  state : JobState
  progress : Option Nat

/-- The queue's persistent state: stored jobs and the next fresh id. -/
structure QueueState where
  jobs : List Job
  nextId : Nat

/-- Modelled from the spec: `src/queue.js` (the BullMQ initializer) is
missing from the repository.  Per the Job Queue contract
`enqueue(jobSpec, options) -> jobId`, the queue assigns a fresh job
identifier and stores the job in `queued` state. -/
def queueAdd (st : QueueState) (name : String) (data : List (String × JVal))
    (opts : JobOpts) : QueueState × Job :=
  let j : Job := { id := st.nextId, name := name, data := data, opts := opts,
                   state := .queued, progress := some 0 }
  ({ jobs := st.jobs ++ [j], nextId := st.nextId + 1 }, j)

/-- Modelled from the spec: `queue.getJob(id)` looks a stored job up by its
queue-assigned identifier. -/
def getJob (st : QueueState) (i : Nat) : Option Job :=
  st.jobs.find? (fun j => j.id == i)

/-- An HTTP response as produced by `res.status(...).json({...})`. -/
structure HttpResp where
  status : Nat
  body : List (String × JVal)

/-- The job-data object literal built by the `POST /publish/youtube`
handler: the five destructured request fields, `uploadedBytes: 0`, and
`chunkSize: parseInt(process.env.CHUNK_SIZE || '8388608')`. -/
def mkJobData (env : Env) (body : List (String × JVal)) :
    List (String × JVal) :=
  [ ("accountId", jsGet body "accountId"),
    ("filePath", jsGet body "filePath"),
    ("thumbnailPath", jsGet body "thumbnailPath"),
    ("metadata", jsGet body "metadata"),
    ("idempotencyKey", jsGet body "idempotencyKey"),
    ("uploadedBytes", .num 0),
    ("chunkSize", numOrNaN (jsParseInt (jsOrStr env.CHUNK_SIZE "8388608"))) ]

/-- The options object literal passed to `queue.add`:
`attempts: parseInt(process.env.MAX_RETRIES || '5')` and
`backoff: {type: 'exponential', delay: 2000}`. -/
def mkJobOpts (env : Env) : JobOpts :=
  { attempts := jsParseInt (jsOrStr env.MAX_RETRIES "5"),
    backoff := { type := "exponential", delay := 2000 } }

/-- The `POST /publish/youtube` handler: destructures the request body,
adds a `youtube-upload` job to the queue, and answers `{jobId: job.id}`. -/
def publishHandler (env : Env) (st : QueueState)
    (body : List (String × JVal)) : QueueState × HttpResp :=
  let r := queueAdd st "youtube-upload" (mkJobData env body) (mkJobOpts env)
  (r.1, { status := 200, body := [("jobId", .num r.2.id)] })

/-- JavaScript `progress || 0` where the stored progress is `null` or
`undefined` (both `none`) or a number (`some v`, falsy when `v = 0`). -/
def progressOrZero : Option Nat → Nat
  | none => 0
  | some v => if v == 0 then 0 else v

/-- The `GET /jobs/:id` handler: 404 with `Job not found` when the job does
not exist, otherwise `{id, state, progress: progress || 0, data}`. -/
def jobsHandler (st : QueueState) (i : Nat) : HttpResp :=
  match getJob st i with
  | none => { status := 404, body := [("error", .str "Job not found")] }
  | some job =>
      { status := 200,
        body := [ ("id", .num job.id),
                  ("state", .str (stateStr job.state)),
                  ("progress", .num (progressOrZero job.progress)),
                  ("data", .obj job.data) ] }

/-- Modelled from the spec: no progress-reporting code exists in the
repository (`src/queue.js` and the worker module are missing).  The Job
Queue section states that progress reports are monotonic — a lower value
than previously recorded is rejected or clamped — and the data model that
the uploaded-byte offset never exceeds the total file size.
`reportProgress total old bytes` is the offset recorded after a report of
`bytes` when `old` was previously recorded for a file of `total` bytes. -/
def reportProgress (total old bytes : Nat) : Nat :=
  min (max old bytes) total

/-- Environment with neither variable set. -/
def env0 : Env := { CHUNK_SIZE := none, MAX_RETRIES := none }

/-- The empty queue. -/
def st0 : QueueState := { jobs := [], nextId := 0 }

/-- A previously completed upload job with idempotency key `k`. -/
def doneJob : Job :=
  { id := 0, name := "youtube-upload",
    data := [ ("accountId", .str "a"), ("filePath", .str "/v.mp4"),
              ("thumbnailPath", .undefined), ("metadata", .undefined),
              ("idempotencyKey", .str "k"), ("uploadedBytes", .num 0),
              ("chunkSize", .num 8388608) ],
    opts := mkJobOpts env0, state := .completed, progress := some 100 }

/-- A queue already holding the completed job `doneJob`. -/
def stDone : QueueState := { jobs := [doneJob], nextId := 1 }

/-- A resubmission carrying the same idempotency key `k` as `doneJob`. -/
def resubmitBody : List (String × JVal) :=
  [ ("accountId", .str "a"), ("filePath", .str "/v.mp4"),
    ("idempotencyKey", .str "k") ]

/-- A submission body that supplies its own `chunkSize` option. -/
def bodyWithChunk : List (String × JVal) :=
  [ ("accountId", .str "a"), ("filePath", .str "/v.mp4"),
    ("chunkSize", .num 1024) ]

/-- A stored job whose stored progress is null/undefined. -/
def nullProgJob : Job :=
  { id := 0, name := "youtube-upload", data := [], opts := mkJobOpts env0,
    state := .active, progress := none }

/-- A queue holding only `nullProgJob`. -/
def stNullProg : QueueState := { jobs := [nullProgJob], nextId := 1 }

/-- Claim C1 (code_bug evidence): resubmitting with an idempotency key that
matches the already completed job `doneJob` does not short-circuit — the
handler enqueues a second job and answers with the fresh job id, not the
original resource. -/
theorem c1_resubmit_enqueues_again :
    (publishHandler env0 stDone resubmitBody).1.jobs.length = 2 ∧
    (publishHandler env0 stDone resubmitBody).2.status = 200 ∧
    (publishHandler env0 stDone resubmitBody).2.body =
      [("jobId", JVal.num 1)] :=
  ⟨rfl, rfl, rfl⟩

/-- Claim C2 (code_bug evidence): the empty submission `{}` — missing the
account identifier and the source file location — is not rejected: a job
with all destructured fields `undefined` is enqueued and a 200 response
with a job id is returned. -/
theorem c2_malformed_enqueued :
    (publishHandler env0 st0 []).1.jobs.length = 1 ∧
    (publishHandler env0 st0 []).2.status = 200 ∧
    ((getJob (publishHandler env0 st0 []).1 0).map
        (fun j => jsGet j.data "accountId") = some JVal.undefined) :=
  ⟨rfl, rfl, rfl⟩

/-- Helper: `find?` over a list ending in a matching element, when no
earlier element matches. -/
theorem find?_append_last {α : Type} {l : List α} {j : α} {p : α → Bool}
    (h : ∀ x ∈ l, p x = false) (hj : p j = true) :
    (l ++ [j]).find? p = some j := by
  induction l with
  | nil => simp [List.find?, hj]
  | cons a t ih =>
      have ha := h a (by simp)
      rw [List.cons_append, List.find?_cons, ha]
      exact ih (fun x hx => h x (by simp [hx]))

/-- Claim C3 (counterexample): the inquiry response for the existing job 0
has a field outside `{id, state, progress, error}` — the raw job data is
included. -/
theorem c3_counterexample :
    ¬ (((jobsHandler stDone 0).body.map Prod.fst).all
        (fun k => ["id", "state", "progress", "error"].contains k) = true) := by
  decide

/-- Claim C3 (amended): for every existing job, the inquiry response has
status 200 and consists of exactly the fields `id`, `state`, `progress`
and `data` (the raw job data), in that order; no `error` field is ever
included. -/
theorem c3_fields (st : QueueState) (i : Nat) (j : Job)
    (h : getJob st i = some j) :
    (jobsHandler st i).status = 200 ∧
    (jobsHandler st i).body.map Prod.fst = ["id", "state", "progress", "data"] := by
  simp [jobsHandler, h]

/-- Witness for `c3_fields` at the concrete queue `stDone` and job 0. -/
theorem c3_fields_witness :
    (jobsHandler stDone 0).status = 200 ∧
    (jobsHandler stDone 0).body.map Prod.fst =
      ["id", "state", "progress", "data"] :=
  c3_fields stDone 0 doneJob rfl

/-- Claim C4: with neither `CHUNK_SIZE` nor `MAX_RETRIES` set in the
environment, every enqueued job carries chunk size 8388608 bytes, maximum
attempt count 5, and exponential backoff with base delay 2000 ms. -/
theorem c4_defaults (env : Env) (st : QueueState)
    (body : List (String × JVal))
    (h1 : env.CHUNK_SIZE = none) (h2 : env.MAX_RETRIES = none) :
    ∃ j : Job, (publishHandler env st body).1.jobs = st.jobs ++ [j] ∧
      jsGet j.data "chunkSize" = JVal.num 8388608 ∧
      j.opts.attempts = some 5 ∧
      j.opts.backoff = { type := "exponential", delay := 2000 } := by
  refine ⟨_, rfl, ?_, ?_, ?_⟩
  · show jsGet (mkJobData env body) "chunkSize" = JVal.num 8388608
    simp only [mkJobData, h1]
    rfl
  · show (mkJobOpts env).attempts = some 5
    simp only [mkJobOpts, h2]
    rfl
  · rfl

/-- Witness for `c4_defaults` at the unset environment `env0`. -/
theorem c4_defaults_witness :
    ∃ j : Job, (publishHandler env0 st0 []).1.jobs = st0.jobs ++ [j] ∧
      jsGet j.data "chunkSize" = JVal.num 8388608 ∧
      j.opts.attempts = some 5 ∧
      j.opts.backoff = { type := "exponential", delay := 2000 } :=
  c4_defaults env0 st0 [] rfl rfl

/-- Claim C5 (counterexample): a submission supplying `chunkSize: 1024` in
its body yields a job whose chunk size is the environment default 8388608,
not the caller's 1024. -/
theorem c5_counterexample :
    ((getJob (publishHandler env0 st0 bodyWithChunk).1 0).map
        (fun j => jsGet j.data "chunkSize") = some (JVal.num 8388608)) ∧
    jsGet bodyWithChunk "chunkSize" = JVal.num 1024 ∧
    JVal.num 8388608 ≠ JVal.num 1024 :=
  ⟨rfl, rfl, by simp⟩

/-- Claim C5 (amended): the chunk size of every enqueued job is parsed from
the process-wide `CHUNK_SIZE` environment variable (default `8388608`);
any `chunkSize` supplied in the request body is ignored — two submissions
with arbitrary different bodies get the same chunk size. -/
theorem c5_chunk_from_env (env : Env) (st : QueueState)
    (body other : List (String × JVal)) :
    ∃ j k : Job,
      (publishHandler env st body).1.jobs = st.jobs ++ [j] ∧
      (publishHandler env st other).1.jobs = st.jobs ++ [k] ∧
      jsGet j.data "chunkSize" =
        numOrNaN (jsParseInt (jsOrStr env.CHUNK_SIZE "8388608")) ∧
      jsGet j.data "chunkSize" = jsGet k.data "chunkSize" :=
  ⟨_, _, rfl, rfl, rfl, rfl⟩

/-- Claim C6: on any well-formed queue state (stored ids below `nextId`),
the submission response carries exactly the id of the job just enqueued,
and `getJob` on the resulting state with that id yields that job. -/
theorem c6_jobid (env : Env) (st : QueueState) (body : List (String × JVal))
    (h : ∀ x ∈ st.jobs, x.id < st.nextId) :
    ∃ j : Job,
      (publishHandler env st body).1.jobs = st.jobs ++ [j] ∧
      (publishHandler env st body).2.body = [("jobId", JVal.num j.id)] ∧
      getJob (publishHandler env st body).1 j.id = some j := by
  refine ⟨_, rfl, rfl, ?_⟩
  show (st.jobs ++ [_]).find? (fun x : Job => x.id == st.nextId) = _
  apply find?_append_last
  · intro x hx
    simp only [beq_eq_false_iff_ne]
    exact Nat.ne_of_lt (h x hx)
  · simp

/-- Witness for `c6_jobid` at the empty queue. -/
theorem c6_jobid_witness :
    ∃ j : Job,
      (publishHandler env0 st0 []).1.jobs = st0.jobs ++ [j] ∧
      (publishHandler env0 st0 []).2.body = [("jobId", JVal.num j.id)] ∧
      getJob (publishHandler env0 st0 []).1 j.id = some j :=
  c6_jobid env0 st0 [] (by simp [st0])

/-- Claim C7: a progress report never decreases the recorded offset and
never takes it past the total file size; a report lower than the recorded
offset is clamped, leaving the offset unchanged. -/
theorem c7_progress_monotone (total old bytes : Nat) (h : old ≤ total) :
    old ≤ reportProgress total old bytes ∧
    reportProgress total old bytes ≤ total ∧
    (bytes ≤ old → reportProgress total old bytes = old) := by
  unfold reportProgress
  refine ⟨le_min (le_max_left _ _) h, min_le_right _ _, fun hb => ?_⟩
  rw [max_eq_left hb, min_eq_left h]

/-- Witness for `c7_progress_monotone`: total 10, recorded 3, report 2. -/
theorem c7_progress_monotone_witness :
    3 ≤ 10 ∧
    (3 ≤ reportProgress 10 3 2 ∧ reportProgress 10 3 2 ≤ 10 ∧
      (2 ≤ 3 → reportProgress 10 3 2 = 3)) :=
  ⟨by decide, c7_progress_monotone 10 3 2 (by decide)⟩

/-- Claim C8: whatever the request payload, the job enqueued by the
submission handler records `uploadedBytes = 0`. -/
theorem c8_uploaded_zero (env : Env) (st : QueueState)
    (body : List (String × JVal)) :
    ∃ j : Job, (publishHandler env st body).1.jobs = st.jobs ++ [j] ∧
      jsGet j.data "uploadedBytes" = JVal.num 0 :=
  ⟨_, rfl, rfl⟩

/-- Claim C9: a status inquiry for an id with no stored job answers HTTP
404 with body `{error: 'Job not found'}`. -/
theorem c9_not_found (st : QueueState) (i : Nat) (h : getJob st i = none) :
    jobsHandler st i =
      { status := 404, body := [("error", JVal.str "Job not found")] } := by
  simp [jobsHandler, h]

/-- Witness for `c9_not_found` at the empty queue. -/
theorem c9_not_found_witness :
    jobsHandler st0 0 =
      { status := 404, body := [("error", JVal.str "Job not found")] } :=
  c9_not_found st0 0 rfl

/-- Claim C10: for every existing job the inquiry response's `progress`
field is a number — never null or undefined — and it is 0 whenever the
stored progress is absent (`none`) or the falsy number 0. -/
theorem c10_progress_zero (st : QueueState) (i : Nat) (j : Job)
    (h : getJob st i = some j) :
    (∃ n : Nat, jsGet (jobsHandler st i).body "progress" = JVal.num n) ∧
    ((j.progress = none ∨ j.progress = some 0) →
      jsGet (jobsHandler st i).body "progress" = JVal.num 0) := by
  constructor
  · exact ⟨progressOrZero j.progress, by simp [jobsHandler, h]; rfl⟩
  · rintro (hp | hp) <;>
      simp [jobsHandler, h, hp, progressOrZero] <;> rfl

/-- Witness for `c10_progress_zero` at a stored job whose progress is
null/undefined. -/
theorem c10_progress_witness :
    (∃ n : Nat, jsGet (jobsHandler stNullProg 0).body "progress" = JVal.num n) ∧
    ((nullProgJob.progress = none ∨ nullProgJob.progress = some 0) →
      jsGet (jobsHandler stNullProg 0).body "progress" = JVal.num 0) :=
  c10_progress_zero stNullProg 0 nullProgJob rfl
